/-
Verification of the tap-contentquo extraction pipeline
(src/tap_contentquo/streams.py and src/tap_contentquo/tap.py).

The Python modules are shallowly embedded: JSON/Python values become the
inductive JValue (JValue.null models Python None), dictionaries become
association lists, the mutable token attribute is threaded explicitly, and
the network is a World record mapping the auth endpoint and each GET URL to
a status/body pair.  Exceptions raised by the Python code are modelled with
the PyErr type inside Except; a generator is modelled by the list of records
it yields before it either finishes or escapes with an exception.
-/
import Mathlib

set_option linter.unusedVariables false

/-- JSON / Python values. JValue.null models Python None. -/
inductive JValue where
  | null : JValue
  | bool : Bool → JValue
  | num : Int → JValue
  | str : String → JValue
  | arr : List JValue → JValue
  | obj : List (String × JValue) → JValue

/-- A Python dict with string keys, as an association list. -/
abbrev PyDict := List (String × JValue)

/-- Exceptions raised by the embedded Python code.  FatalAPIError is imported
by streams.py (from singer_sdk.exceptions); the constructor is present so
that the theorems can speak about whether it is ever raised. -/
inductive PyErr where
  | exn : String → PyErr
  | keyError : String → PyErr
  | attrError : String → PyErr
  | typeError : String → PyErr
  | fatalAPIError : PyErr
deriving DecidableEq, Repr

/-- First-match lookup in an association list (Python dict lookup: the
literal dicts in the source have distinct keys). -/
def lookupKV : PyDict → String → Option JValue
  | [], _ => none
  | (k, v) :: rest, key => if k = key then some v else lookupKV rest key

/-- Python dict item assignment d[key] = v: overwrite in place when the key
exists, append otherwise. -/
def setKV : PyDict → String → JValue → PyDict
  | [], key, v => [(key, v)]
  | (k, w) :: rest, key, v =>
      if k = key then (key, v) :: rest else (k, w) :: setKV rest key v

/-- Python dict.get(key): the value, or None when the key is absent. -/
def pyDictGet (fields : PyDict) (k : String) : JValue :=
  match lookupKV fields k with
  | some v => v
  | none => .null

/-- Python truthiness test used by get_token (if not self.token: ...). -/
def pyFalsy : JValue → Bool
  | .null => true
  | .bool b => !b
  | .num n => n = 0
  | .str s => s = ""
  | .arr xs => xs.isEmpty
  | .obj fields => fields.isEmpty

/-- Python test (v is None). -/
def jvIsNone : JValue → Bool
  | .null => true
  | _ => false

/-- Python v.get(key) on an arbitrary value: a dict yields the value or
None, any other value raises AttributeError. -/
def pyGet : JValue → String → Except PyErr JValue
  | .obj fields, k => .ok (pyDictGet fields k)
  | _, _ => .error (.attrError "get")

/-- Python str() of a value, as used by str.format substitution.  The
catalog only ever substitutes string ids; the non-string renderings are
simplified placeholders. -/
def jvToStr : JValue → String
  | .null => "None"
  | .bool b => if b then "True" else "False"
  | .num n => toString n
  | .str s => s
  | .arr _ => "list"
  | .obj _ => "dict"

/-- Python iteration (for x in v): lists yield elements, strings yield
one-character strings, dicts yield keys, everything else raises
TypeError. -/
def pyIter : JValue → Except PyErr (List JValue)
  | .arr xs => .ok xs
  | .str s => .ok (s.toList.map (fun c => .str (String.singleton c)))
  | .obj fields => .ok (fields.map (fun kv => .str kv.1))
  | _ => .error (.typeError "object is not iterable")

def lbrace : Char := Char.ofNat 123

def rbrace : Char := Char.ofNat 125

/-- Python template.format(**context) over the template's characters,
one character at a time.  The second argument is none while copying
literal text and (some acc) while collecting the characters of a
placeholder name (in reverse).  Each placeholder between braces is
replaced by the context value (KeyError when absent); a stray closing
brace or an unterminated placeholder raises ValueError.  Doubled-brace
escapes do not occur in the catalog's path templates and are not
modelled. -/
def pyFormatAux (ctx : PyDict) : List Char → Option (List Char) → Except PyErr String
  | [], none => .ok ""
  | [], some _ => .error (.exn "ValueError: expected closing brace in format string")
  | c :: rest, none =>
    if c = lbrace then
      pyFormatAux ctx rest (some [])
    else if c = rbrace then
      .error (.exn "ValueError: single closing brace in format string")
    else
      match pyFormatAux ctx rest none with
      | .error e => .error e
      | .ok s => .ok (String.singleton c ++ s)
  | c :: rest, some acc =>
    if c = rbrace then
      let name := String.mk acc.reverse
      match lookupKV ctx name with
      | none => .error (.keyError name)
      | some v =>
        match pyFormatAux ctx rest none with
        | .error e => .error e
        | .ok s => .ok (jvToStr v ++ s)
    else
      pyFormatAux ctx rest (some (c :: acc))

/-- Python self.path.format(**context). -/
def pyFormat (template : String) (ctx : PyDict) : Except PyErr String :=
  pyFormatAux ctx template.toList none

/-- The HTTP world a run executes against: the response of the single
authentication endpoint (POST url_base/auth/authenticate) and, for each GET
URL, the status code and the parsed JSON body of the response. -/
structure World where
  authStatus : Nat
  authBody : JValue
  get : String → Nat × JValue

/-- TapContentQuoStream.url_base: self.config subscripted with
api_base_url, a KeyError when the key is absent. -/
def url_base (config : PyDict) : Except PyErr JValue :=
  match lookupKV config "api_base_url" with
  | some v => .ok v
  | none => .error (.keyError "api_base_url")

/-- Outcome of TapContentQuoStream.authenticate: whether it raised, the
value of self.token afterwards, and whether the POST to the auth endpoint
was actually issued. -/
structure AuthOut where
  res : Except PyErr Unit
  token : JValue
  posted : Bool

/-- TapContentQuoStream.authenticate: build the auth URL from url_base
(which can raise before any request goes out), POST key/secret, and on a
200 store response.json().get("token") in self.token; on any other status
raise.  A missing token field in a 200 body is stored as None without an
error. -/
def authenticate (config : PyDict) (w : World) (tok : JValue) : AuthOut :=
  match url_base config with
  | .error e => ⟨.error e, tok, false⟩
  | .ok _base =>
    if w.authStatus = 200 then
      match pyGet w.authBody "token" with
      | .error e => ⟨.error e, tok, true⟩
      | .ok t => ⟨.ok (), t, true⟩
    else
      ⟨.error (.exn ("Failed to authenticate. Status code: " ++ toString w.authStatus)),
        tok, true⟩

/-- Outcome of TapContentQuoStream.get_token: the returned value of
self.token (or the exception), the token state afterwards, and whether an
auth POST was issued. -/
structure TokOut where
  res : Except PyErr JValue
  token : JValue
  posted : Bool

/-- TapContentQuoStream.get_token: authenticate when self.token is falsy
(the class attribute starts as None), then return self.token — which may
still be None when the auth body had no token field. -/
def get_token (config : PyDict) (w : World) (tok : JValue) : TokOut :=
  if pyFalsy tok then
    let a := authenticate config w tok
    match a.res with
    | .error e => ⟨.error e, a.token, a.posted⟩
    | .ok _ => ⟨.ok a.token, a.token, a.posted⟩
  else
    ⟨.ok tok, tok, false⟩

/-- Outcome of the TapContentQuoStream.http_headers property. -/
structure HdrOut where
  res : Except PyErr PyDict
  token : JValue
  posted : Bool

/-- TapContentQuoStream.http_headers: a fixed content-type/accept pair plus
X-Auth-Token set to the result of a fresh get_token() call. -/
def http_headers (config : PyDict) (w : World) (tok : JValue) : HdrOut :=
  let t := get_token config w tok
  match t.res with
  | .error e => ⟨.error e, t.token, t.posted⟩
  | .ok v =>
    ⟨.ok [("Content-Type", .str "application/json"),
          ("Accept", .str "application/json"),
          ("X-Auth-Token", v)], t.token, t.posted⟩

/-- The two post_process behaviours present in streams.py: every stream
except EvaluationIssues inherits the singer-sdk default (return the row
unchanged); EvaluationIssues overrides it with row with key eid set from
context. -/
inductive PostPolicy where
  | inherited : PostPolicy
  | issuesEid : PostPolicy
deriving DecidableEq, Repr

/-- post_process for the given policy.  The issuesEid policy performs
row with key eid assigned context subscripted at eid and returns row:
a None context or a context without eid raises, as does a non-dict row. -/
def post_process (pp : PostPolicy) (row : JValue) (context : Option PyDict) :
    Except PyErr JValue :=
  match pp with
  | .inherited => .ok row
  | .issuesEid =>
    match context with
    | none => .error (.typeError "NoneType object is not subscriptable")
    | some ctx =>
      match lookupKV ctx "eid" with
      | none => .error (.keyError "eid")
      | some v =>
        match row with
        | .obj fields => .ok (.obj (setKV fields "eid" v))
        | _ => .error (.typeError "object does not support item assignment")

/-- Run the generator loop (for record in response_json at key issues:
yield self.post_process(record, context)): the records yielded before an
exception, and the exception if one escaped. -/
def yieldAll (pp : PostPolicy) (ctx : Option PyDict) :
    List JValue → List JValue × Option PyErr
  | [] => ([], none)
  | r :: rest =>
    match post_process pp r ctx with
    | .error e => ([], some e)
    | .ok out =>
      let t := yieldAll pp ctx rest
      (out :: t.1, t.2)

/-- One stream class of streams.py: its declared name, path template,
primary keys, records_jsonpath, parent stream and post_process override.
replication_key is None on every stream and is omitted. -/
structure StreamDef where
  name : String
  path : String
  primary_keys : List String
  records_jsonpath : String
  parent : Option String
  pp : PostPolicy
deriving DecidableEq, Repr

/-- Evaluations (root stream). -/
def evaluations : StreamDef :=
  ⟨"evaluations", "/evaluations", ["eid"], "$.evaluations[*]", none, .inherited⟩

/-- EvaluationDetails (child of evaluations). -/
def evaluation_details : StreamDef :=
  ⟨"evaluation_details", "/evaluations/{eid}", ["eid"], "$", some "evaluations", .inherited⟩

/-- EvaluationIssues (child of evaluations, overrides post_process). -/
def evaluation_issues : StreamDef :=
  ⟨"evaluation_issues", "/evaluations/{eid}/issues", ["id"], "$.issues[*]",
    some "evaluations", .issuesEid⟩

/-- EvaluationMetrics (child of evaluations). -/
def evaluation_metrics : StreamDef :=
  ⟨"evaluation_metrics", "/evaluations/{eid}/metrics", ["evaluationId"], "$",
    some "evaluations", .inherited⟩

/-- Users (root stream). -/
def users : StreamDef :=
  ⟨"users", "/users", ["id"], "$[*]", none, .inherited⟩

/-- UserDetails (child of users). -/
def user_details : StreamDef :=
  ⟨"user_details", "/users/{id}", ["id"], "$", some "users", .inherited⟩

/-- Every stream class defined in streams.py. -/
def allStreams : List StreamDef :=
  [evaluations, evaluation_details, evaluation_issues, evaluation_metrics,
   users, user_details]

/-- Outcome of one request_records(context) invocation: the records the
generator yielded, the exception that escaped it (if any), the token state
afterwards, whether any auth POST was issued, whether the data GET was
issued, and the X-Auth-Token header value the GET carried (null when no
GET happened). -/
structure RROut where
  records : List JValue
  err : Option PyErr
  token : JValue
  authPosted : Bool
  getIssued : Bool
  getAuthHeader : JValue

/-- TapContentQuoStream.request_records, which EvaluationIssues duplicates
verbatim (plus its post_process override): ensure a token, skip entirely
when context is None, build the URL from url_base and path.format(**context),
evaluate http_headers (a second get_token call), issue the GET, skip on any
status other than 200, and otherwise yield post_process of each element of
response_json at the fixed key issues whenever that key is not None —
regardless of the stream's declared records_jsonpath. -/
def request_records (sd : StreamDef) (config : PyDict) (w : World) (tok : JValue)
    (context : Option PyDict) : RROut :=
  let t := get_token config w tok
  match t.res with
  | .error e => ⟨[], some e, t.token, t.posted, false, .null⟩
  | .ok _ =>
    match context with
    | none => ⟨[], none, t.token, t.posted, false, .null⟩
    | some ctx =>
      match url_base config with
      | .error e => ⟨[], some e, t.token, t.posted, false, .null⟩
      | .ok base =>
        match pyFormat sd.path ctx with
        | .error e => ⟨[], some e, t.token, t.posted, false, .null⟩
        | .ok tail =>
          let url := jvToStr base ++ tail
          let h := http_headers config w t.token
          match h.res with
          | .error e => ⟨[], some e, h.token, t.posted || h.posted, false, .null⟩
          | .ok hdrs =>
            let xauth := pyDictGet hdrs "X-Auth-Token"
            let resp := w.get url
            if resp.1 ≠ 200 then
              ⟨[], none, h.token, t.posted || h.posted, true, xauth⟩
            else
              match pyGet resp.2 "issues" with
              | .error e => ⟨[], some e, h.token, t.posted || h.posted, true, xauth⟩
              | .ok issuesVal =>
                if jvIsNone issuesVal then
                  ⟨[], none, h.token, t.posted || h.posted, true, xauth⟩
                else
                  match pyIter issuesVal with
                  | .error e => ⟨[], some e, h.token, t.posted || h.posted, true, xauth⟩
                  | .ok rows =>
                    let y := yieldAll sd.pp (some ctx) rows
                    ⟨y.1, y.2, h.token, t.posted || h.posted, true, xauth⟩

/-- Evaluations.get_child_context: return the dict with eid taken from the
record by subscripting (KeyError when absent, TypeError on a non-dict);
the context argument is unused. -/
def evaluations_get_child_context (record : JValue) (context : Option PyDict) :
    Except PyErr PyDict :=
  match record with
  | .obj fields =>
    match lookupKV fields "eid" with
    | some v => .ok [("eid", v)]
    | none => .error (.keyError "eid")
  | _ => .error (.typeError "object is not subscriptable")

/-- Users.get_child_context: return the dict with id taken from the record
by subscripting; the context argument is unused. -/
def users_get_child_context (record : JValue) (context : Option PyDict) :
    Except PyErr PyDict :=
  match record with
  | .obj fields =>
    match lookupKV fields "id" with
    | some v => .ok [("id", v)]
    | none => .error (.keyError "id")
  | _ => .error (.typeError "object is not subscriptable")

/-- The class names defined in streams.py. -/
def streamsModuleClasses : List String :=
  ["TapContentQuoStream", "Evaluations", "EvaluationDetails", "EvaluationIssues",
   "EvaluationMetrics", "Users", "UserDetails"]

/-- The class names tap.py imports from tap_contentquo.streams and lists in
STREAM_TYPES (the commented-out QualityProfiles entry excluded). -/
def tapStreamTypeImports : List String :=
  ["Evaluations", "EvaluationDetails", "EvaluationIssues", "EvaluationMetadata",
   "EvaluationMetrics", "Users", "UserDetails"]

/-- Whether every name tap.py imports is actually defined in streams.py;
when this is false the import statement raises ImportError before
TapContentQuo.discover_streams can instantiate anything. -/
def tapImportsResolve : Bool :=
  tapStreamTypeImports.all (fun n => streamsModuleClasses.contains n)

/-- The keys TapContentQuo.config_jsonschema declares as required. -/
def configRequiredKeys : List String := ["api_url", "key", "secret"]

/-- A configuration satisfies the declared schema when every required key
is present (the value types are irrelevant to the claims). -/
def satisfiesConfigSchema (cfg : PyDict) : Bool :=
  configRequiredKeys.all (fun k => (lookupKV cfg k).isSome)

/-- Modelled from the spec: the record-extraction path applied to a 2xx
body.  The spec describes three locator shapes, matching the
records_jsonpath strings declared in streams.py: a dollar-dot-key-star
locator selects the elements of the array nested under that key, the bare
dollar locator selects the single object at the document root, and the
dollar-star locator selects the elements of the array at the document
root.  Returns none when the locator does not fit the body. -/
def specRecordsExtract (jsonpath : String) (body : JValue) : Option (List JValue) :=
  if jsonpath = "$" then
    some [body]
  else if jsonpath = "$[*]" then
    match body with
    | .arr xs => some xs
    | _ => none
  else if jsonpath.take 2 = "$." ∧ jsonpath.takeRight 3 = "[*]" then
    let key := (jsonpath.drop 2).dropRight 3
    match body with
    | .obj fields =>
      match lookupKV fields key with
      | some (.arr xs) => some xs
      | _ => none
    | _ => none
  else
    none

/-- A configuration holding all four keys the code ever reads. -/
def cfg0 : PyDict :=
  [("api_base_url", .str "b"), ("api_url", .str "b"),
   ("key", .str "k"), ("secret", .str "s")]

/-- A configuration satisfying the declared schema but without
api_base_url. -/
def cfgNoBase : PyDict :=
  [("api_url", .str "b"), ("key", .str "k"), ("secret", .str "s")]

/-- A cached non-falsy token. -/
def tok0 : JValue := .str "t"

/-- One evaluations record as the API returns it. -/
def evalRec1 : JValue := .obj [("eid", .str "E1")]

/-- A 200 body of the evaluations list endpoint: the records sit in the
array under the key evaluations. -/
def evalsBody : JValue := .obj [("evaluations", .arr [evalRec1])]

/-- A world whose auth endpoint works and whose every GET returns 500. -/
def w500 : World := ⟨200, .obj [("token", .str "t")], fun _ => (500, .obj [])⟩

/-- A world whose every GET returns the evaluations list body with
status 200. -/
def wEvals : World := ⟨200, .obj [("token", .str "t")], fun _ => (200, evalsBody)⟩

/-- A world whose auth endpoint returns 200 with a body that has no token
field, and whose every GET returns an empty 200 object. -/
def wAuthBad : World := ⟨200, .obj [("status", .str "ok")], fun _ => (200, .obj [])⟩

/-- A world whose auth endpoint would hand out a fresh token, used to show
that a cached token suppresses the call. -/
def w0 : World := ⟨200, .obj [("token", .str "fresh")], fun _ => (200, .obj [])⟩

/-- The 200 body of the evaluation_details endpoint for E1: a single
detail object at the document root, with no issues key. -/
def detailBodyE1 : JValue :=
  .obj [("eid", .str "E1"), ("name", .str "Evaluation one")]

/-- The world of the C8 scenario: the detail endpoint answers 200 for E1
and 404 for E2. -/
def wC8 : World :=
  ⟨200, .obj [("token", .str "t")],
    fun u =>
      if u = "b/evaluations/E1" then (200, detailBodyE1)
      else if u = "b/evaluations/E2" then (404, .obj [("message", .str "not found")])
      else (500, .obj [])⟩

/-- A world whose GET returns a 200 issues body holding one record that
lacks the primary-key field id. -/
def wIssuesNoPK : World :=
  ⟨200, .obj [("token", .str "t")], fun _ => (200, .obj [("issues", .arr [.obj []])])⟩

/-- The child context for evaluation E1. -/
def ctxE1 : PyDict := [("eid", .str "E1")]

/-- The child context for evaluation E2. -/
def ctxE2 : PyDict := [("eid", .str "E2")]

/-- url_base only ever raises KeyError, never FatalAPIError. -/
theorem url_base_not_fatal (cfg : PyDict) (e : PyErr)
    (h : url_base cfg = .error e) : e ≠ PyErr.fatalAPIError := by
  unfold url_base at h
  split at h
  · simp at h
  · simp at h
    subst h
    simp

/-- pyGet only ever raises AttributeError. -/
theorem pyGet_not_fatal (v : JValue) (k : String) (e : PyErr)
    (h : pyGet v k = .error e) : e ≠ PyErr.fatalAPIError := by
  cases v <;> simp [pyGet] at h <;> subst h <;> simp

/-- authenticate never raises FatalAPIError. -/
theorem authenticate_not_fatal (cfg : PyDict) (w : World) (tok : JValue) (e : PyErr)
    (h : (authenticate cfg w tok).res = .error e) : e ≠ PyErr.fatalAPIError := by
  unfold authenticate at h
  split at h
  · rename_i e' he'
    simp at h
    subst h
    exact url_base_not_fatal cfg e' he'
  · split at h
    · split at h
      · rename_i e' he'
        simp at h
        subst h
        exact pyGet_not_fatal _ _ e' he'
      · simp at h
    · simp at h
      subst h
      simp

/-- get_token never raises FatalAPIError. -/
theorem get_token_not_fatal (cfg : PyDict) (w : World) (tok : JValue) (e : PyErr)
    (h : (get_token cfg w tok).res = .error e) : e ≠ PyErr.fatalAPIError := by
  unfold get_token at h
  split at h
  · dsimp only at h
    cases ha : (authenticate cfg w tok).res with
    | error e' =>
      rw [ha] at h
      simp at h
      subst h
      exact authenticate_not_fatal cfg w tok _ ha
    | ok v =>
      rw [ha] at h
      simp at h
  · simp at h

/-- http_headers never raises FatalAPIError. -/
theorem http_headers_not_fatal (cfg : PyDict) (w : World) (tok : JValue) (e : PyErr)
    (h : (http_headers cfg w tok).res = .error e) : e ≠ PyErr.fatalAPIError := by
  unfold http_headers at h
  dsimp only at h
  cases ht : (get_token cfg w tok).res with
  | error e' =>
    rw [ht] at h
    simp at h
    subst h
    exact get_token_not_fatal cfg w tok _ ht
  | ok v =>
    rw [ht] at h
    simp at h

/-- pyFormatAux only ever raises KeyError or ValueError. -/
theorem pyFormatAux_not_fatal (ctx : PyDict) (cs : List Char)
    (m : Option (List Char)) (e : PyErr)
    (h : pyFormatAux ctx cs m = .error e) : e ≠ PyErr.fatalAPIError := by
  induction cs generalizing m with
  | nil =>
    cases m with
    | none => simp [pyFormatAux] at h
    | some acc =>
      simp [pyFormatAux] at h
      subst h
      simp
  | cons c rest ih =>
    cases m with
    | none =>
      unfold pyFormatAux at h
      split at h
      · exact ih _ h
      · split at h
        · simp at h
          subst h
          simp
        · split at h
          · rename_i he'
            simp at h
            subst h
            exact ih _ he'
          · simp at h
    | some acc =>
      unfold pyFormatAux at h
      split at h
      · dsimp only at h
        cases hl : lookupKV ctx (String.mk acc.reverse) with
        | none =>
          rw [hl] at h
          simp at h
          subst h
          simp
        | some v =>
          rw [hl] at h
          cases hr : pyFormatAux ctx rest none with
          | error e' =>
            rw [hr] at h
            simp at h
            subst h
            exact ih _ hr
          | ok s =>
            rw [hr] at h
            simp at h
      · exact ih _ h

/-- post_process never raises FatalAPIError. -/
theorem post_process_not_fatal (pp : PostPolicy) (row : JValue)
    (octx : Option PyDict) (e : PyErr)
    (h : post_process pp row octx = .error e) : e ≠ PyErr.fatalAPIError := by
  unfold post_process at h
  split at h
  · simp at h
  · split at h
    · simp at h
      subst h
      simp
    · split at h
      · simp at h
        subst h
        simp
      · split at h
        · simp at h
        · simp at h
          subst h
          simp

/-- The yield loop never surfaces FatalAPIError. -/
theorem yieldAll_not_fatal (pp : PostPolicy) (octx : Option PyDict)
    (rows : List JValue) (e : PyErr)
    (h : (yieldAll pp octx rows).2 = some e) : e ≠ PyErr.fatalAPIError := by
  induction rows with
  | nil => simp [yieldAll] at h
  | cons r rest ih =>
    unfold yieldAll at h
    split at h
    · rename_i he'
      simp at h
      subst h
      exact post_process_not_fatal pp r octx _ he'
    · simp at h
      exact ih h

/-- pyIter only ever raises TypeError. -/
theorem pyIter_not_fatal (v : JValue) (e : PyErr)
    (h : pyIter v = .error e) : e ≠ PyErr.fatalAPIError := by
  cases v <;> simp [pyIter] at h <;> subst h <;> simp

/-- request_records never surfaces FatalAPIError, whatever the stream,
configuration, world, token state or context. -/
theorem request_records_not_fatal (sd : StreamDef) (cfg : PyDict) (w : World)
    (tok : JValue) (octx : Option PyDict) :
    (request_records sd cfg w tok octx).err ≠ some PyErr.fatalAPIError := by
  intro hc
  unfold request_records at hc
  dsimp only at hc
  cases ht : (get_token cfg w tok).res with
  | error e =>
    rw [ht] at hc
    simp at hc
    exact get_token_not_fatal cfg w tok e ht hc
  | ok v =>
    rw [ht] at hc
    cases octx with
    | none => simp at hc
    | some ctx =>
      dsimp only at hc
      cases hb : url_base cfg with
      | error e =>
        rw [hb] at hc
        simp at hc
        exact url_base_not_fatal cfg e hb hc
      | ok base =>
        rw [hb] at hc
        cases hf : pyFormat sd.path ctx with
        | error e =>
          rw [hf] at hc
          simp at hc
          exact pyFormatAux_not_fatal ctx sd.path.toList none e hf hc
        | ok tail =>
          rw [hf] at hc
          dsimp only at hc
          cases hh : (http_headers cfg w (get_token cfg w tok).token).res with
          | error e =>
            rw [hh] at hc
            simp at hc
            exact http_headers_not_fatal cfg w _ e hh hc
          | ok hdrs =>
            rw [hh] at hc
            dsimp only at hc
            by_cases hs : (w.get (jvToStr base ++ tail)).1 = 200
            · simp only [hs, ne_eq, not_true_eq_false, if_false, ite_false] at hc
              cases hg : pyGet (w.get (jvToStr base ++ tail)).2 "issues" with
              | error e =>
                rw [hg] at hc
                simp at hc
                exact pyGet_not_fatal _ _ e hg hc
              | ok issuesVal =>
                rw [hg] at hc
                by_cases hn : jvIsNone issuesVal = true
                · simp [hn] at hc
                · simp only [hn, if_false, ite_false] at hc
                  cases hi : pyIter issuesVal with
                  | error e =>
                    rw [hi] at hc
                    simp at hc
                    exact pyIter_not_fatal issuesVal e hi hc
                  | ok rows =>
                    rw [hi] at hc
                    simp at hc
                    exact yieldAll_not_fatal sd.pp (some ctx) rows _ hc rfl
            · simp [hs] at hc

/-- With a cached non-falsy token, get_token returns it with no auth
POST. -/
theorem get_token_cached (cfg : PyDict) (w : World) (tok : JValue)
    (htok : pyFalsy tok = false) :
    get_token cfg w tok = ⟨.ok tok, tok, false⟩ := by
  unfold get_token
  simp [htok]

/-- With a cached non-falsy token, http_headers carries it as X-Auth-Token
with no auth POST. -/
theorem http_headers_cached (cfg : PyDict) (w : World) (tok : JValue)
    (htok : pyFalsy tok = false) :
    http_headers cfg w tok =
      ⟨.ok [("Content-Type", .str "application/json"),
            ("Accept", .str "application/json"),
            ("X-Auth-Token", tok)], tok, false⟩ := by
  unfold http_headers
  rw [get_token_cached cfg w tok htok]

/-- C1 (amended): every stream of the catalog follows one and the same
lenient policy.  First conjunct: for any stream whatsoever, with a valid
cached token, a configured base URL and a formattable path, a response
whose status is anything other than 200 (404, other 4xx, 5xx, and even
non-200 2xx alike) makes request_records yield zero records and return
without raising.  Second conjunct: request_records never surfaces
FatalAPIError under any circumstances, so no strict policy exists. -/
theorem request_records_lenient_for_all_streams :
    (∀ (sd : StreamDef) (cfg : PyDict) (w : World) (tok : JValue) (ctx : PyDict)
       (b : JValue) (p : String),
       pyFalsy tok = false →
       lookupKV cfg "api_base_url" = some b →
       pyFormat sd.path ctx = .ok p →
       (w.get (jvToStr b ++ p)).1 ≠ 200 →
       request_records sd cfg w tok (some ctx) = ⟨[], none, tok, false, true, tok⟩) ∧
    (∀ (sd : StreamDef) (cfg : PyDict) (w : World) (tok : JValue)
       (octx : Option PyDict),
       (request_records sd cfg w tok octx).err ≠ some PyErr.fatalAPIError) := by
  constructor
  · intro sd cfg w tok ctx b p htok hbase hfmt hstatus
    have hub : url_base cfg = .ok b := by
      unfold url_base
      rw [hbase]
    unfold request_records
    rw [get_token_cached cfg w tok htok]
    dsimp only
    rw [hub, hfmt]
    dsimp only
    rw [http_headers_cached cfg w tok htok]
    dsimp only
    rw [if_pos hstatus]
    simp [pyDictGet, lookupKV]
  · exact request_records_not_fatal

/-- Witness for the first conjunct of the C1 theorem at a concrete input:
the users stream against a world answering 500 everywhere. -/
theorem request_records_lenient_for_all_streams_witness :
    request_records users cfg0 w500 tok0 (some []) =
      ⟨[], none, tok0, false, true, tok0⟩ :=
  request_records_lenient_for_all_streams.1 users cfg0 w500 tok0 []
    (.str "b") "/users" rfl rfl rfl (by decide)

/-- C1 counterexample: the claim calls evaluations a strict-policy stream
whose request_records raises FatalAPIError on a non-404 non-2xx status,
yet against a world answering 500 the call returns zero records with no
exception at all. -/
theorem strict_policy_counterexample :
    (request_records evaluations cfg0 w500 tok0 (some [])).err = none ∧
    (request_records evaluations cfg0 w500 tok0 (some [])).records = [] ∧
    (w500.get "b/evaluations").1 = 500 := by
  refine ⟨rfl, rfl, rfl⟩

/-- C2: the claim states that for a 2xx response the records yielded are
the elements selected by the stream's declared records_jsonpath.  In the
code, request_records instead reads the fixed key issues from every
response: for the evaluations stream, whose declared path selects the
array under the key evaluations, a 200 list body yields zero records,
while the declared path selects exactly the one record in the body. -/
theorem records_jsonpath_ignored_counterexample :
    (request_records evaluations cfg0 wEvals tok0 (some [])).records = [] ∧
    (request_records evaluations cfg0 wEvals tok0 (some [])).err = none ∧
    (wEvals.get "b/evaluations").1 = 200 ∧
    evaluations.records_jsonpath = "$.evaluations[*]" ∧
    specRecordsExtract evaluations.records_jsonpath evalsBody = some [evalRec1] := by
  refine ⟨rfl, rfl, rfl, rfl, rfl⟩

/-- C3: the claim states that record extraction invoked with the
empty/absent context a root stream receives is not skipped and produces
the full record collection.  In the code, request_records returns
immediately when the context is None: for both root streams, against a
world whose every GET would answer 200 with a populated evaluations list
body, the call with the absent context yields zero records and never even
issues the GET. -/
theorem root_context_skipped_counterexample :
    request_records evaluations cfg0 wEvals tok0 none =
      ⟨[], none, tok0, false, false, .null⟩ ∧
    request_records users cfg0 wEvals tok0 none =
      ⟨[], none, tok0, false, false, .null⟩ ∧
    specRecordsExtract evaluations.records_jsonpath evalsBody = some [evalRec1] := by
  refine ⟨rfl, rfl, rfl⟩

/-- C4: the catalog claim fails: tap.py lists EvaluationMetadata in
STREAM_TYPES and imports it from tap_contentquo.streams, but streams.py
defines no class of that name, so importing the tap module raises
ImportError before discover_streams can instantiate any catalog entry,
and no stream named evaluation_metadata exists among the defined
streams. -/
theorem evaluation_metadata_missing :
    "EvaluationMetadata" ∈ tapStreamTypeImports ∧
    "EvaluationMetadata" ∉ streamsModuleClasses ∧
    tapImportsResolve = false ∧
    "evaluation_metadata" ∉ allStreams.map StreamDef.name := by
  decide

/-- C5 counterexample: the auth endpoint answers 200 with a body that has
no token field; the claim says this malformed body raises an
authentication error, but authenticate succeeds, caches None as the
token, get_token returns None without raising, and a subsequent data GET
is issued carrying a null X-Auth-Token. -/
theorem auth_malformed_body_counterexample :
    (authenticate cfg0 wAuthBad .null).res = .ok () ∧
    (authenticate cfg0 wAuthBad .null).token = .null ∧
    (get_token cfg0 wAuthBad .null).res = .ok .null ∧
    (request_records evaluations cfg0 wAuthBad .null (some [])).getIssued = true ∧
    (request_records evaluations cfg0 wAuthBad .null (some [])).getAuthHeader = .null ∧
    (request_records evaluations cfg0 wAuthBad .null (some [])).err = none := by
  refine ⟨rfl, rfl, rfl, rfl, rfl, rfl⟩

/-- C5 (amended): with a configured base URL, authenticate raises exactly
when the auth endpoint returns a non-200 status (leaving the token
unchanged); on a 200 with a dict body it always succeeds, storing
body.get of token — which is None when the field is missing — so a
malformed success body is accepted silently. -/
theorem authenticate_error_exactly_on_non200 :
    ∀ (cfg : PyDict) (w : World) (tok : JValue) (b : JValue),
      lookupKV cfg "api_base_url" = some b →
      ((w.authStatus ≠ 200 →
          (authenticate cfg w tok).res =
            .error (.exn ("Failed to authenticate. Status code: " ++
              toString w.authStatus)) ∧
          (authenticate cfg w tok).token = tok) ∧
       (∀ (fields : PyDict), w.authStatus = 200 → w.authBody = .obj fields →
          (authenticate cfg w tok).res = .ok () ∧
          (authenticate cfg w tok).token = pyDictGet fields "token")) := by
  intro cfg w tok b hbase
  have hub : url_base cfg = .ok b := by
    unfold url_base
    rw [hbase]
  constructor
  · intro hs
    unfold authenticate
    rw [hub, if_neg hs]
    exact ⟨rfl, rfl⟩
  · intro fields h200 hbody
    unfold authenticate
    rw [hub, if_pos h200, hbody]
    exact ⟨rfl, rfl⟩

/-- Witness for the C5 theorem at a concrete input: a 200 auth response
whose body lacks a token field is accepted with token None. -/
theorem authenticate_error_exactly_on_non200_witness :
    (authenticate cfg0 wAuthBad .null).res = .ok () ∧
    (authenticate cfg0 wAuthBad .null).token =
      pyDictGet [("status", .str "ok")] "token" :=
  (authenticate_error_exactly_on_non200 cfg0 wAuthBad .null (.str "b") rfl).2
    [("status", .str "ok")] rfl rfl

/-- C6 counterexample: the claim says a credential carries an expiry
instant and get_token re-authenticates whenever now is at or past expiry
minus the safety margin; instantiate the guard with now 100, expiry 50
and margin 5, so it demands a refresh, yet get_token with any cached
non-falsy token performs no network call and returns the stale token —
the world would even hand out a fresh one.  The code tracks no time at
all: the credential is a bare token. -/
theorem token_refresh_counterexample :
    (100 : Nat) ≥ 50 - 5 ∧
    (get_token cfg0 w0 tok0).posted = false ∧
    (get_token cfg0 w0 tok0).token = tok0 ∧
    w0.authBody = .obj [("token", .str "fresh")] := by
  refine ⟨by omega, rfl, rfl, rfl⟩

/-- C6 (amended): get_token authenticates exactly when the cached token is
falsy (in particular on first call, when it is None) and otherwise
returns the cached token with no network call; no expiry instant exists
and no time-based refresh is ever performed. -/
theorem get_token_no_expiry :
    ∀ (cfg : PyDict) (w : World) (tok : JValue),
      (pyFalsy tok = false → get_token cfg w tok = ⟨.ok tok, tok, false⟩) ∧
      (pyFalsy tok = true →
         (get_token cfg w tok).token = (authenticate cfg w tok).token ∧
         (get_token cfg w tok).posted = (authenticate cfg w tok).posted) := by
  intro cfg w tok
  constructor
  · intro htok
    exact get_token_cached cfg w tok htok
  · intro htok
    unfold get_token
    rw [if_pos htok]
    dsimp only
    cases ha : (authenticate cfg w tok).res with
    | error e => exact ⟨rfl, rfl⟩
    | ok v => exact ⟨rfl, rfl⟩

/-- Witness for the C6 theorem at a concrete input: a cached token is
returned unchanged with no auth POST. -/
theorem get_token_no_expiry_witness :
    get_token cfg0 w0 tok0 = ⟨.ok tok0, tok0, false⟩ :=
  (get_token_no_expiry cfg0 w0 tok0).1 rfl

/-- C7 counterexample: the claim says a record missing a primary-key field
is skipped rather than emitted; the evaluation_issues stream (primary key
id) receives a 200 body whose single issues record is the empty dict, and
request_records emits it anyway — post-processed to carry only the parent
eid, with the primary-key field id still absent — raising nothing. -/
theorem missing_primary_key_emitted_counterexample :
    (request_records evaluation_issues cfg0 wIssuesNoPK tok0 (some ctxE1)).records =
      [.obj [("eid", .str "E1")]] ∧
    (request_records evaluation_issues cfg0 wIssuesNoPK tok0 (some ctxE1)).err = none ∧
    evaluation_issues.primary_keys = ["id"] ∧
    lookupKV [("eid", .str "E1")] "id" = none := by
  refine ⟨rfl, rfl, rfl, rfl⟩

/-- C7 (amended): post-processing never checks primary keys.  Every stream
except evaluation_issues returns the record unchanged; evaluation_issues
copies the parent eid from the context into the record and returns it,
whether or not any primary-key field is present. -/
theorem post_process_no_pk_check :
    ∀ (row : JValue) (octx : Option PyDict),
      (post_process .inherited row octx = .ok row) ∧
      (∀ (fields : PyDict) (ctx : PyDict) (v : JValue),
         row = .obj fields → octx = some ctx → lookupKV ctx "eid" = some v →
         post_process .issuesEid row octx = .ok (.obj (setKV fields "eid" v))) := by
  intro row octx
  constructor
  · rfl
  · intro fields ctx v hrow hoctx hv
    subst hrow
    subst hoctx
    unfold post_process
    dsimp only
    rw [hv]

/-- Witness for the C7 theorem at a concrete input: an empty record gains
the parent eid and nothing else. -/
theorem post_process_no_pk_check_witness :
    post_process .issuesEid (.obj []) (some ctxE1) =
      .ok (.obj [("eid", .str "E1")]) :=
  (post_process_no_pk_check (.obj []) (some ctxE1)).2 [] ctxE1 (.str "E1") rfl rfl rfl

/-- C8: in the claimed scenario the detail endpoint answers 200 with a
detail object for E1 and 404 for E2, and the claim expects exactly one
evaluation_details record.  The run does complete without error, but the
E1 call also yields zero records, because request_records reads the fixed
key issues, absent from the detail object — even though the stream's
declared extraction path selects the detail object itself. -/
theorem detail_scenario_zero_records :
    request_records evaluation_details cfg0 wC8 tok0 (some ctxE1) =
      ⟨[], none, tok0, false, true, tok0⟩ ∧
    request_records evaluation_details cfg0 wC8 tok0 (some ctxE2) =
      ⟨[], none, tok0, false, true, tok0⟩ ∧
    (wC8.get "b/evaluations/E1").1 = 200 ∧
    (wC8.get "b/evaluations/E2").1 = 404 ∧
    specRecordsExtract evaluation_details.records_jsonpath detailBodyE1 =
      some [detailBodyE1] := by
  refine ⟨rfl, rfl, rfl, rfl, rfl⟩

/-- C9: parent-to-child context derivation is a deterministic pure
function of the parent record: both get_child_context implementations
ignore the context argument entirely, and on a record carrying the
relevant id field they return exactly the singleton context the claim
describes. -/
theorem get_child_context_deterministic :
    ∀ (r : JValue) (c c' : Option PyDict),
      evaluations_get_child_context r c = evaluations_get_child_context r c' ∧
      users_get_child_context r c = users_get_child_context r c' ∧
      (∀ (fields : PyDict) (v : JValue), r = .obj fields →
         lookupKV fields "eid" = some v →
         evaluations_get_child_context r c = .ok [("eid", v)]) ∧
      (∀ (fields : PyDict) (v : JValue), r = .obj fields →
         lookupKV fields "id" = some v →
         users_get_child_context r c = .ok [("id", v)]) := by
  intro r c c'
  refine ⟨rfl, rfl, ?_, ?_⟩
  · intro fields v hr hv
    subst hr
    unfold evaluations_get_child_context
    dsimp only
    rw [hv]
  · intro fields v hr hv
    subst hr
    unfold users_get_child_context
    dsimp only
    rw [hv]

/-- Witness for the C9 theorem at concrete inputs, with two different
context arguments. -/
theorem get_child_context_deterministic_witness :
    evaluations_get_child_context evalRec1 none = .ok [("eid", .str "E1")] ∧
    users_get_child_context (.obj [("id", .str "U1")]) (some []) =
      .ok [("id", .str "U1")] :=
  ⟨(get_child_context_deterministic evalRec1 none (some ctxE1)).2.2.1
      [("eid", .str "E1")] (.str "E1") rfl rfl,
   (get_child_context_deterministic (.obj [("id", .str "U1")]) (some []) none).2.2.2
      [("id", .str "U1")] (.str "U1") rfl rfl⟩

/-- C10: the declared configuration schema requires api_url, key and
secret, but url_base reads api_base_url; for every configuration that
satisfies the schema yet lacks api_base_url, url_base raises KeyError,
authenticate propagates it before the auth POST goes out, and every
request_records call (starting from the initial None token state) fails
with the same KeyError before any HTTP request — no auth POST, no data
GET. -/
theorem missing_api_base_url_fails_before_request :
    ∀ (cfg : PyDict) (w : World) (sd : StreamDef) (octx : Option PyDict),
      satisfiesConfigSchema cfg = true →
      lookupKV cfg "api_base_url" = none →
      url_base cfg = .error (.keyError "api_base_url") ∧
      (authenticate cfg w .null).res = .error (.keyError "api_base_url") ∧
      (authenticate cfg w .null).posted = false ∧
      (request_records sd cfg w .null octx).err = some (.keyError "api_base_url") ∧
      (request_records sd cfg w .null octx).records = [] ∧
      (request_records sd cfg w .null octx).authPosted = false ∧
      (request_records sd cfg w .null octx).getIssued = false := by
  intro cfg w sd octx hschema hmiss
  have hub : url_base cfg = .error (.keyError "api_base_url") := by
    unfold url_base
    rw [hmiss]
  have hauth : authenticate cfg w .null =
      ⟨.error (.keyError "api_base_url"), .null, false⟩ := by
    unfold authenticate
    rw [hub]
  have hgt : get_token cfg w .null =
      ⟨.error (.keyError "api_base_url"), .null, false⟩ := by
    unfold get_token
    rw [if_pos (by rfl)]
    dsimp only
    rw [hauth]
  refine ⟨hub, by rw [hauth], by rw [hauth], ?_, ?_, ?_, ?_⟩ <;>
    · unfold request_records
      rw [hgt]

/-- Witness for the C10 theorem at a concrete input: the configuration
holding exactly the schema-required keys. -/
theorem missing_api_base_url_fails_before_request_witness :
    satisfiesConfigSchema cfgNoBase = true ∧
    (request_records evaluations cfgNoBase w0 .null (some [])).err =
      some (.keyError "api_base_url") ∧
    (request_records evaluations cfgNoBase w0 .null (some [])).getIssued = false :=
  ⟨rfl,
   (missing_api_base_url_fails_before_request cfgNoBase w0 evaluations (some [])
      rfl rfl).2.2.2.1,
   (missing_api_base_url_fails_before_request cfgNoBase w0 evaluations (some [])
      rfl rfl).2.2.2.2.2.2⟩
